import Mathlib

/-!
Shallow embedding of the esp8266 AT-command driver (src/lib.rs and
src/commands.rs): the command catalog, the command encoder inside
`send_command`, the response classifier inside `get_response`, the line
framer `read_serial`, and the exchange loop of `send_command`, together
with theorems checking the specification's statements about them.

Bytes are modelled as natural numbers (values 0..255); byte streams as
lists of bytes, where running off the end of the list models a transport
read that fails (and a loop that would block forever yields `none`).
-/

namespace Esp8266

/-- Response kinds, from `commands.rs` `enum AT_response`. -/
inductive AT_response where
  | UNKNOWN_COMMAND
  | OK
  | FAIL
  | ready
  | ERROR
  | ALREADY_CONNECTED
  | ready_to_send
  | WIFI_CONNECTED
  | WIFI_GOT_IP
  | WIFI_DISCONNECT
  | busy_s
  | busy_p
  | X_CONNECT
  | X_CLOSED
  | IPD
  | STA_CONNECTED
  | DIST_STA_IP
  | STA_DISCONNECTED
  deriving DecidableEq

/-- Command catalog, from `commands.rs` `enum AT_commands`.  Rust integer
parameters (u8/u16) are modelled as `Nat`, string slices as `String`. -/
inductive AT_commands where
  | NO_COMMAND
  | AT
  | RST
  | GMR
  | GSLP (time : Nat)
  | ATE (echo : Bool)
  | RESTORE
  | UART
  | SLEEP
  | WAKEUPGPIO
  | RFPOWER
  | RFVDD
  | SYSRAM
  | SYSADC
  | SYSIOSETCFG
  | SYSIOGETCFG
  | SYSGPIODIR
  | SYSGPIOWRITE
  | SYSGPIOREAD
  | SYSMSG
  | CWMODE (mode : Nat)
  | CWJAP (ssid : String) (pwd : String)
  | CWQAP
  | CWSAP (ssid : String) (pwd : String) (channel : Nat) (enc : Nat)
  | CWDHCP (mode : Nat) (en : Nat)
  | CWAUTOCONN (en : Nat)
  | CWHOSTNAME (hostname : String)
  | CIPSTART (protocol : String) (remote_ip : String) (remote_port : Nat)
  | CIPSTART_EXT (protocol : String) (remote_ip : String) (remote_port : Nat)
      (local_port : Nat) (mode : Nat)
  | CIPSEND (length : Nat)
  | SEND (data : String)
  | CIPCLOSE
  | CIFSR
  | CIPMUX (mode : Nat)
  | CIPSERVER (mode : Nat)
  | CIPSERVER_EXT (mode : Nat) (port : Nat)
  | CIPSERVERMAXCONN
  | CIPMODE
  | SAVETRANSLINK
  | CIPSTO
  | PING (url : String)
  | CIUPDATE
  | CIPDINFO (mode : Nat)
  | IPD
  | CIPRECVMODE
  | CIPRECVDATA
  | CIPRECVLEN
  | CIPSNTPCFG
  | CIPSNTPTIME
  | CIPDNS
  deriving DecidableEq

/-- Bytes of an ASCII string, as natural numbers (Rust `str::as_bytes`;
all wire text in this driver is ASCII, where UTF-8 bytes coincide with
character codes). -/
def strBytes (s : String) : List Nat :=
  s.data.map Char.toNat

/-- One encoded command: the wire text, the expected response kind, and
whether CR LF is appended — the triple `(send_, expected, endChar)`
produced by the match in `send_command` (lib.rs lines 301-369). -/
structure EncodedCommand where
  text : String
  expected : AT_response
  endChar : Bool
  deriving DecidableEq

/-- The command encoder: the match over `cmd` in `send_command`
(lib.rs lines 301-369), with `write!` formatting rendered as string
concatenation (decimal rendering of integers, quotes around strings,
no escaping — exactly the format strings of the source). -/
def encode : AT_commands → EncodedCommand
  | .AT => ⟨"AT", .OK, true⟩
  | .ATE echo => if echo then ⟨"ATE1", .OK, true⟩ else ⟨"ATE0", .OK, true⟩
  | .RST => ⟨"AT+RST", .ready, true⟩
  | .CWJAP ssid pwd =>
      ⟨"AT+CWJAP=\"" ++ ssid ++ "\",\"" ++ pwd ++ "\"", .OK, true⟩
  | .CWMODE mode => ⟨"AT+CWMODE=" ++ toString mode, .OK, true⟩
  | .CIFSR => ⟨"AT+CIFSR", .OK, true⟩
  | .CIPMUX mode => ⟨"AT+CIPMUX=" ++ toString mode, .OK, true⟩
  | .CIPSERVER mode => ⟨"AT+CIPSERVER=" ++ toString mode, .OK, true⟩
  | .CIPSERVER_EXT mode port =>
      ⟨"AT+CIPSERVER=" ++ toString mode ++ "," ++ toString port, .OK, true⟩
  | .CIPSTART protocol remote_ip remote_port =>
      ⟨"AT+CIPSTART=\"" ++ protocol ++ "\",\"" ++ remote_ip ++ "\"," ++
        toString remote_port, .OK, true⟩
  | .CIPSTART_EXT protocol remote_ip remote_port local_port mode =>
      ⟨"AT+CIPSTART=\"" ++ protocol ++ "\",\"" ++ remote_ip ++ "\"," ++
        toString remote_port ++ "," ++ toString local_port ++ "," ++
        toString mode, .OK, true⟩
  | .CIPSEND length => ⟨"AT+CIPSEND=" ++ toString length, .OK, true⟩
  | .SEND data => ⟨data, .OK, false⟩
  | _ => ⟨"commands::AT_commands::NO_COMMAND", .UNKNOWN_COMMAND, true⟩

/-- The commands given an explicit arm by the encoder match in
`send_command`; everything else falls to the `_` arm. -/
def inAllowList : AT_commands → Bool
  | .AT | .ATE _ | .RST | .CWJAP _ _ | .CWMODE _ | .CIFSR | .CIPMUX _
  | .CIPSERVER _ | .CIPSERVER_EXT _ _ | .CIPSTART _ _ _
  | .CIPSTART_EXT _ _ _ _ _ | .CIPSEND _ | .SEND _ => true
  | _ => false

/-- `write_serial` (lib.rs lines 481-493): the bytes put on the wire —
the buffer, followed by CR LF when `endChar` is set. -/
def write_serial (buffer : List Nat) (endChar : Bool) : List Nat :=
  buffer ++ (if endChar then [13, 10] else [])

/-- The bytes `send_command` puts on the wire for a command (the
`write_serial(send_.as_bytes(), endChar)` call, lib.rs line 373). -/
def wire_bytes (cmd : AT_commands) : List Nat :=
  write_serial (strBytes (encode cmd).text) (encode cmd).endChar

/-- `str_to_response` (commands.rs lines 328-349): exact byte-slice match
from a response string to a response kind. -/
def str_to_response (response : List Nat) : AT_response :=
  if response = strBytes "OK" then .OK
  else if response = strBytes "FAIL" then .FAIL
  else if response = strBytes "ready" then .ready
  else if response = strBytes "ERROR" then .ERROR
  else if response = strBytes "ALREADY CONNECTED" then .ALREADY_CONNECTED
  else if response = strBytes ">" then .ready_to_send
  else if response = strBytes "WIFI CONNECTED" then .WIFI_CONNECTED
  else if response = strBytes "WIFI GOT IP" then .WIFI_GOT_IP
  else if response = strBytes "WIFI DISCONNECT" then .WIFI_DISCONNECT
  else if response = strBytes "busy s..." then .busy_s
  else if response = strBytes "busy p..." then .busy_p
  else if response = strBytes ",CONNECT" then .X_CONNECT
  else if response = strBytes ",CLOSED" then .X_CLOSED
  else if response = strBytes "+IPD" then .IPD
  else if response = strBytes "+STA_CONNECTED:" then .STA_CONNECTED
  else if response = strBytes "+DIST_STA_IP:" then .DIST_STA_IP
  else if response = strBytes "+STA_DISCONNECTED:" then .STA_DISCONNECTED
  else .UNKNOWN_COMMAND

/-- The textual classification chain of `get_response` (lib.rs lines
453-474): ordered `starts_with` checks on the line buffer.  Note the
source maps a line starting with "Recv" to `OK` (line 462) and contains
no check for "ERROR". -/
def classify_text (buffer : List Nat) : AT_response :=
  if List.isPrefixOf (strBytes "OK") buffer then .OK
  else if List.isPrefixOf (strBytes "FAIL") buffer then .FAIL
  else if List.isPrefixOf (strBytes "ready") buffer then .ready
  else if List.isPrefixOf (strBytes "> ") buffer then .ready_to_send
  else if List.isPrefixOf (strBytes "Recv") buffer then .OK
  else if List.isPrefixOf (strBytes "ALREADY CONNECTED") buffer then .ALREADY_CONNECTED
  else if List.isPrefixOf (strBytes "WIFI CONNECTED") buffer then .WIFI_CONNECTED
  else if List.isPrefixOf (strBytes "WIFI GOT IP") buffer then .WIFI_GOT_IP
  else if List.isPrefixOf (strBytes "WIFI DISCONNECT") buffer then .WIFI_DISCONNECT
  else .UNKNOWN_COMMAND

/-- The whole classification of one line by `get_response`: the `+IPD`
check first (lib.rs line 432), then the textual chain. -/
def classify_line (buffer : List Nat) : AT_response :=
  if List.isPrefixOf (strBytes "+IPD") buffer then .IPD
  else classify_text buffer

/-- The prefix strings listed in spec section 6, in the order given
there (used to state the claims' premises, not drawn from the code). -/
def spec_prefix_table : List (List Nat) :=
  [strBytes "OK", strBytes "FAIL", strBytes "ready", strBytes "ERROR",
   strBytes "ALREADY CONNECTED", strBytes "> ", strBytes "WIFI CONNECTED",
   strBytes "WIFI GOT IP", strBytes "WIFI DISCONNECT", strBytes "busy s...",
   strBytes "busy p...", strBytes ",CONNECT", strBytes ",CLOSED",
   strBytes "+IPD", strBytes "+STA_CONNECTED:", strBytes "+DIST_STA_IP:",
   strBytes "+STA_DISCONNECTED:"]

/-- First stage of `read_serial` (lib.rs lines 497-508): read until a
non-zero byte arrives, with special handling of a leading carriage
return (whose following byte is read and discarded, marking the first
byte as already parsed).  Returns the first byte, the
`parsed_first_byte` flag, and the rest of the stream; `none` when the
stream runs out with only zero bytes seen (the Rust loop would keep
re-reading forever). -/
def read_first_byte : List Nat → Option (Nat × Bool × List Nat)
  | [] => none
  | b :: rest =>
    if b = 0 then read_first_byte rest
    else if b = 13 then
      match rest with
      | [] => some (13, false, [])
      | _ :: rest2 => some (13, true, rest2)
    else some (b, false, rest)

/-- The local state of `read_serial`'s fill loop (lib.rs lines
497-512): the `parsed_first_byte`, `parse_missed_byte` and
`missed_byte` variables. -/
structure FramerState where
  parsed_first_byte : Bool
  parse_missed_byte : Bool
  missed_byte : Nat
  deriving DecidableEq

/-- The `for elem in buffer` fill loop of `read_serial` (lib.rs lines
513-539), iterating once per buffer slot.  Returns the bytes written,
the rest of the stream, and the Ok/Err status.  When a carriage return
is read and the following byte is not a line feed, the source stores it
in `missed_byte` and sets `parse_missed_byte` — but then falls through
to the unconditional `break` on line 531, so the loop ends either way;
the two branches of the innermost test therefore return the same value,
and the `parse_missed_byte` branch of the loop body is only reachable
from an initial state that never arises. -/
def read_line_loop (first_byte : Nat) :
    Nat → List Nat → FramerState → List Nat → List Nat × List Nat × Bool
  | 0, acc, _, stream => (acc, stream, true)
  | slots + 1, acc, st, stream =>
    if st.parsed_first_byte = false then
      read_line_loop first_byte slots (acc ++ [first_byte])
        { st with parsed_first_byte := true } stream
    else if st.parse_missed_byte then
      read_line_loop first_byte slots (acc ++ [st.missed_byte])
        { st with parse_missed_byte := false } stream
    else
      match stream with
      | [] => (acc, [], false)
      | byte :: rest =>
        if byte = 13 then
          match rest with
          | [] => (acc, [], true)
          | byte2 :: rest2 =>
            if byte2 = 10 then (acc, rest2, true)
            else (acc, rest2, true)
        else read_line_loop first_byte slots (acc ++ [byte]) st rest

/-- `read_serial` (lib.rs lines 496-541): frame one unit of input from
the byte stream into a 64-byte zero-initialised buffer.  Returns the
full 64-byte buffer, the unconsumed stream, and the Ok/Err status;
`none` when the function would block forever waiting for a first
byte. -/
def read_serial (stream : List Nat) : Option (List Nat × List Nat × Bool) :=
  match read_first_byte stream with
  | none => none
  | some (first_byte, parsed, rest) =>
    let r := read_line_loop first_byte 64 [] ⟨parsed, false, 0⟩ rest
    some (r.1 ++ List.replicate (64 - r.1.length) 0, r.2.1, r.2.2)

/-- The colon search of the `+IPD` branch (lib.rs lines 433-438):
`while buffer[index] != b':'` starting at index 5.  `none` models the
out-of-bounds panic when no colon is found within the buffer.  The fuel
argument (instantiated with the buffer length) only bounds the
recursion and never runs out before the index leaves the buffer. -/
def find_colon (buffer : List Nat) : Nat → Nat → Option Nat
  | 0, _ => none
  | fuel + 1, index =>
    match buffer[index]? with
    | none => none
    | some b => if b = 58 then some index else find_colon buffer fuel (index + 1)

/-- The decimal-length accumulation of the `+IPD` branch (lib.rs lines
439-441): `data_len += (buffer[4 + num_digit - i] - 48) * 10^i` for
`i` below `num_digit`, in `u8` arithmetic (wrap-around modelled with
`% 256`; the subtraction is truncated, as every scanned digit byte is
at least 48 in the runs the claims concern). -/
def ipd_len (buffer : List Nat) (num_digit : Nat) : Nat → Nat
  | 0 => 0
  | i + 1 =>
    (ipd_len buffer num_digit i +
      ((buffer.getD (4 + num_digit - i) 0 - 48) * (10 ^ i % 256)) % 256) % 256

/-- `get_response` (lib.rs lines 406-478): frame one line with
`read_serial` (its Ok/Err result is dropped by the source, line 412),
then either extract a `+IPD` data frame from the line buffer or run the
textual classification chain.  Returns `((response, data_len), bytes
written to the caller's data buffer, rest of the stream)`; `none`
models a panic (index out of bounds) or a read that never returns. -/
def get_response (stream : List Nat) :
    Option ((AT_response × Nat) × List Nat × List Nat) :=
  match read_serial stream with
  | none => none
  | some (buffer, rest, _ok) =>
    if List.isPrefixOf (strBytes "+IPD") buffer then
      match find_colon buffer buffer.length 5 with
      | none => none
      | some index =>
        let num_digit := index - 5
        let data_len := ipd_len buffer num_digit num_digit
        if index + data_len + 1 ≤ buffer.length then
          some ((.IPD, data_len), (buffer.drop (index + 1)).take data_len, rest)
        else none
    else
      some ((classify_text buffer, 0), [], rest)

/-- The mutable device state of `struct esp8266` that the exchange
engine touches: `connection_status`, `got_ip` and `ip` (lib.rs lines
27-29). -/
structure DeviceState where
  connection_status : Bool
  got_ip : Bool
  ip : Nat × Nat × Nat × Nat
  deriving DecidableEq

/-- The state a fresh device starts in (`esp8266::new`, lib.rs lines
69-80). -/
def esp_new : DeviceState :=
  ⟨false, false, (0, 0, 0, 0)⟩

/-- One observed result of a `get_response` call inside
`send_command`'s loop: `some (kind, len)` for the `Ok((cmd, len))` arm,
`none` for the `Err(_)` arm (lib.rs lines 377-401). -/
abbrev Outcome := Option (AT_response × Nat)

/-- The outcome of reacting to one classified line (or one failed
read): the updated device state, whether the wait is over, how many
times the command bytes were rewritten, and how many 200 ms pacing
delays were taken. -/
structure StepResult where
  state : DeviceState
  satisfied : Bool
  writes : Nat
  delays : Nat
  deriving DecidableEq

/-- The body of `send_command`'s wait loop (lib.rs lines 377-401): the
if/else-if chain over the classified response, in source order —
expected kind, then `ERROR` (immediate resend), then
`ALREADY_CONNECTED`, then the three WIFI notifications (state update
only), then the default arm (200 ms delay and resend); a failed read
changes nothing and keeps waiting. -/
def send_command_step (expected : AT_response) (s : DeviceState) :
    Outcome → StepResult
  | some (cmd, _len) =>
    if cmd = expected then ⟨s, true, 0, 0⟩
    else if cmd = .ERROR then ⟨s, false, 1, 0⟩
    else if cmd = .ALREADY_CONNECTED then ⟨s, true, 0, 0⟩
    else if cmd = .WIFI_CONNECTED then
      ⟨{ s with connection_status := true }, false, 0, 0⟩
    else if cmd = .WIFI_DISCONNECT then
      ⟨{ s with connection_status := false, got_ip := false }, false, 0, 0⟩
    else if cmd = .WIFI_GOT_IP then ⟨{ s with got_ip := true }, false, 0, 0⟩
    else ⟨s, false, 1, 1⟩
  | none => ⟨s, false, 0, 0⟩

/-- `send_command`'s wait loop (lib.rs lines 374-403) run over a finite
prefix of the stream of `get_response` outcomes: it stops at the first
satisfying outcome, or processes the whole list while still waiting
(the real loop is unbounded and would keep reading). -/
def send_command_loop (expected : AT_response) (s : DeviceState) :
    List Outcome → StepResult
  | [] => ⟨s, false, 0, 0⟩
  | o :: rest =>
    let r1 := send_command_step expected s o
    if r1.satisfied then r1
    else
      let r2 := send_command_loop expected r1.state rest
      ⟨r2.state, r2.satisfied, r1.writes + r2.writes, r1.delays + r2.delays⟩

/-- `send_command` (lib.rs lines 294-404) over a list of classified
outcomes: the initial `write_serial` of the encoded command (counted as
the first write) followed by the wait loop with the command's expected
kind. -/
def send_command_run (cmd : AT_commands) (s : DeviceState)
    (outcomes : List Outcome) : StepResult :=
  let r := send_command_loop (encode cmd).expected s outcomes
  ⟨r.state, r.satisfied, 1 + r.writes, r.delays⟩

/-- `send` (lib.rs lines 288-291): runs `send_command` and then returns
`Ok(())` unconditionally.  `none` models a `send_command` that never
returns (its loop is not satisfied within the supplied outcomes). -/
def send (cmd : AT_commands) (s : DeviceState) (outcomes : List Outcome) :
    Option (DeviceState × Except Unit Unit) :=
  let r := send_command_run cmd s outcomes
  if r.satisfied then some (r.state, Except.ok ()) else none

/-- The `match self.send(..)` pattern every device-level operation uses
(e.g. lib.rs lines 86-91): set `connection_status` on `Ok`, clear it on
`Err`. -/
def track_conn (s : DeviceState) (r : Except Unit Unit) : DeviceState :=
  match r with
  | .ok _ => { s with connection_status := true }
  | .error _ => { s with connection_status := false }

/-- `init` (lib.rs lines 84-108): `ATE(false)` then `AT`, each tracked
into `connection_status`; `Err(())` when the flag ends up false. -/
def init (s : DeviceState) (o1 o2 : List Outcome) :
    Option (DeviceState × Except Unit Unit) :=
  match send (.ATE false) s o1 with
  | none => none
  | some (s1, r1) =>
    let s1 := track_conn s1 r1
    match send .AT s1 o2 with
    | none => none
    | some (s2, r2) =>
      let s2 := track_conn s2 r2
      some (s2, if s2.connection_status = false then Except.error () else Except.ok ())

/-- `join_AP` (lib.rs lines 116-136): `CWJAP(ssid, password)` then
`CIFSR`. -/
def join_AP (s : DeviceState) (ssid password : String) (o1 o2 : List Outcome) :
    Option (DeviceState × Except Unit Unit) :=
  match send (.CWJAP ssid password) s o1 with
  | none => none
  | some (s1, r1) =>
    let s1 := track_conn s1 r1
    match send .CIFSR s1 o2 with
    | none => none
    | some (s2, r2) =>
      let s2 := track_conn s2 r2
      some (s2, if s2.connection_status = false then Except.error () else Except.ok ())

/-- `get_IP` (lib.rs lines 138-151): one `CIFSR` exchange. -/
def get_IP (s : DeviceState) (o1 : List Outcome) :
    Option (DeviceState × Except Unit Unit) :=
  match send .CIFSR s o1 with
  | none => none
  | some (s1, r1) =>
    let s1 := track_conn s1 r1
    some (s1, if s1.connection_status = false then Except.error () else Except.ok ())

/-- `tcp_server` (lib.rs lines 154-181): `CWMODE(1)`, `CIPMUX(1)`,
`CIPSERVER_EXT(1, port)`. -/
def tcp_server (s : DeviceState) (port : Nat) (o1 o2 o3 : List Outcome) :
    Option (DeviceState × Except Unit Unit) :=
  match send (.CWMODE 1) s o1 with
  | none => none
  | some (s1, r1) =>
    let s1 := track_conn s1 r1
    match send (.CIPMUX 1) s1 o2 with
    | none => none
    | some (s2, r2) =>
      let s2 := track_conn s2 r2
      match send (.CIPSERVER_EXT 1 port) s2 o3 with
      | none => none
      | some (s3, r3) =>
        let s3 := track_conn s3 r3
        some (s3, if s3.connection_status = false then Except.error () else Except.ok ())

/-- `udp_server` (lib.rs lines 184-241): `CWMODE(1)`, `CIPMUX(0)`,
`CIPSTART_EXT("UDP", "0.0.0.0", port, port, 2)`, `CIPSEND(4)`. -/
def udp_server (s : DeviceState) (port : Nat) (o1 o2 o3 o4 : List Outcome) :
    Option (DeviceState × Except Unit Unit) :=
  match send (.CWMODE 1) s o1 with
  | none => none
  | some (s1, r1) =>
    let s1 := track_conn s1 r1
    match send (.CIPMUX 0) s1 o2 with
    | none => none
    | some (s2, r2) =>
      let s2 := track_conn s2 r2
      match send (.CIPSTART_EXT "UDP" "0.0.0.0" port port 2) s2 o3 with
      | none => none
      | some (s3, r3) =>
        let s3 := track_conn s3 r3
        match send (.CIPSEND 4) s3 o4 with
        | none => none
        | some (s4, r4) =>
          let s4 := track_conn s4 r4
          some (s4, if s4.connection_status = false then Except.error () else Except.ok ())

/-- `send_data` (lib.rs lines 245-268): `CIPSEND(data.len())` then
`SEND(data)`, with a local `chk` flag that the second match overwrites,
as in the source. -/
def send_data (s : DeviceState) (data : String) (o1 o2 : List Outcome) :
    Option (DeviceState × Except Unit Unit) :=
  match send (.CIPSEND (strBytes data).length) s o1 with
  | none => none
  | some (s1, r1) =>
    let chk1 := match r1 with | .ok _ => true | .error _ => false
    match send (.SEND data) s1 o2 with
    | none => none
    | some (s2, r2) =>
      let _ := chk1
      let chk := match r2 with | .ok _ => true | .error _ => false
      some (s2, if chk = false then Except.error () else Except.ok ())

/-- Has an operation's recorded result avoided `Err(())`?  `none`
(the call never returned) and `Ok` both count as "never returned
`Err`". -/
def resultOk : Option (DeviceState × Except Unit Unit) → Bool
  | none => true
  | some (_, .ok _) => true
  | some (_, .error _) => false

/-! ## Helper lemmas -/

/-- Every command's expected kind is `OK`, `ready` or `UNKNOWN_COMMAND`. -/
theorem encode_expected_cases (cmd : AT_commands) :
    (encode cmd).expected = .OK ∨ (encode cmd).expected = .ready ∨
      (encode cmd).expected = .UNKNOWN_COMMAND := by
  cases cmd <;> simp [encode]
  case ATE echo => cases echo <;> simp

/-- One loop step satisfies the wait exactly on the expected kind or on
`ALREADY_CONNECTED`, for any expected kind the encoder can produce. -/
theorem step_satisfied_iff (expected : AT_response) (r : AT_response)
    (len : Nat) (s : DeviceState)
    (hd : expected = .OK ∨ expected = .ready ∨ expected = .UNKNOWN_COMMAND) :
    (send_command_step expected s (some (r, len))).satisfied = true ↔
      (r = expected ∨ r = .ALREADY_CONNECTED) := by
  rcases hd with h | h | h <;> subst h <;> cases r <;> simp [send_command_step]

/-- `send` either has not returned, or returned `Ok(())`. -/
theorem send_eq_cases (cmd : AT_commands) (s : DeviceState) (o : List Outcome) :
    send cmd s o = none ∨ ∃ s2, send cmd s o = some (s2, Except.ok ()) := by
  by_cases h : (send_command_run cmd s o).satisfied = true
  · right; exact ⟨(send_command_run cmd s o).state, by simp [send, h]⟩
  · left; simp [send, h]

theorem resultOk_init (s : DeviceState) (o1 o2 : List Outcome) :
    resultOk (init s o1 o2) = true := by
  rcases send_eq_cases (.ATE false) s o1 with h1 | ⟨s1, h1⟩ <;>
    simp only [init, h1, resultOk]
  rcases send_eq_cases .AT { s1 with connection_status := true } o2 with
      h2 | ⟨s2, h2⟩ <;>
    simp [h2, track_conn, resultOk]

theorem resultOk_join_AP (s : DeviceState) (ssid pwd : String)
    (o1 o2 : List Outcome) : resultOk (join_AP s ssid pwd o1 o2) = true := by
  rcases send_eq_cases (.CWJAP ssid pwd) s o1 with h1 | ⟨s1, h1⟩ <;>
    simp only [join_AP, h1, resultOk]
  rcases send_eq_cases .CIFSR { s1 with connection_status := true } o2 with
      h2 | ⟨s2, h2⟩ <;>
    simp [h2, track_conn, resultOk]

theorem resultOk_get_IP (s : DeviceState) (o1 : List Outcome) :
    resultOk (get_IP s o1) = true := by
  rcases send_eq_cases .CIFSR s o1 with h1 | ⟨s1, h1⟩ <;>
    simp [get_IP, h1, track_conn, resultOk]

theorem resultOk_tcp_server (s : DeviceState) (port : Nat)
    (o1 o2 o3 : List Outcome) : resultOk (tcp_server s port o1 o2 o3) = true := by
  rcases send_eq_cases (.CWMODE 1) s o1 with h1 | ⟨s1, h1⟩ <;>
    simp only [tcp_server, h1, resultOk]
  rcases send_eq_cases (.CIPMUX 1) { s1 with connection_status := true } o2 with
      h2 | ⟨s2, h2⟩ <;>
    simp only [h2, track_conn, resultOk]
  rcases send_eq_cases (.CIPSERVER_EXT 1 port)
      { s2 with connection_status := true } o3 with h3 | ⟨s3, h3⟩ <;>
    simp [h3, track_conn, resultOk]

theorem resultOk_udp_server (s : DeviceState) (port : Nat)
    (o1 o2 o3 o4 : List Outcome) :
    resultOk (udp_server s port o1 o2 o3 o4) = true := by
  rcases send_eq_cases (.CWMODE 1) s o1 with h1 | ⟨s1, h1⟩ <;>
    simp only [udp_server, h1, resultOk]
  rcases send_eq_cases (.CIPMUX 0) { s1 with connection_status := true } o2 with
      h2 | ⟨s2, h2⟩ <;>
    simp only [h2, track_conn, resultOk]
  rcases send_eq_cases (.CIPSTART_EXT "UDP" "0.0.0.0" port port 2)
      { s2 with connection_status := true } o3 with h3 | ⟨s3, h3⟩ <;>
    simp only [h3, track_conn, resultOk]
  rcases send_eq_cases (.CIPSEND 4) { s3 with connection_status := true } o4 with
      h4 | ⟨s4, h4⟩ <;>
    simp [h4, track_conn, resultOk]

theorem resultOk_send_data (s : DeviceState) (data : String)
    (o1 o2 : List Outcome) : resultOk (send_data s data o1 o2) = true := by
  rcases send_eq_cases (.CIPSEND (strBytes data).length) s o1 with
      h1 | ⟨s1, h1⟩ <;>
    simp only [send_data, h1, resultOk]
  rcases send_eq_cases (.SEND data) s1 o2 with h2 | ⟨s2, h2⟩ <;>
    simp [h2, resultOk]

/-! ## Claim theorems -/

/-- C1: the claim says a line beginning with "ERROR" classifies to the
generic-error kind; on the code it does not.  Framing and classifying
the line "ERROR" yields `UNKNOWN_COMMAND`: the classification chain of
`get_response` has no check for "ERROR" at all — its image never
contains `AT_response.ERROR` (third conjunct), even though the unused
`str_to_response` does map the exact bytes "ERROR" to it (second
conjunct) and `send_command` has a dedicated, now unreachable, `ERROR`
resend branch. -/
theorem error_line_classified_unknown :
    get_response (strBytes "ERROR" ++ [13, 10]) =
        some ((.UNKNOWN_COMMAND, 0), [], []) ∧
      str_to_response (strBytes "ERROR") = .ERROR ∧
      ∀ buffer : List Nat, classify_line buffer ∈
        [AT_response.IPD, .OK, .FAIL, .ready, .ready_to_send,
         .ALREADY_CONNECTED, .WIFI_CONNECTED, .WIFI_GOT_IP,
         .WIFI_DISCONNECT, .UNKNOWN_COMMAND] := by
  refine ⟨by decide, by decide, ?_⟩
  intro buffer
  unfold classify_line classify_text
  repeat' split
  all_goals simp

/-- C2: the claim says a carriage return not followed by a line feed is
not a line boundary and the byte after it is preserved; on the code it
is a boundary and the byte is dropped.  On the stream A, CR, B, CR, LF
the framed line is just "A" (the unconditional `break` on lib.rs line
531 runs even after `missed_byte`/`parse_missed_byte` are set), the
byte B (66) is consumed but appears nowhere in the buffer, and the
remaining stream starts at the second CR. -/
theorem bare_cr_terminates_line :
    read_serial [65, 13, 66, 13, 10] =
      some (65 :: List.replicate 63 0, [13, 10], true) := by
  decide

/-- C3: framing and classifying the line "+IPD,5:HELLO" yields kind
`IPD` with extracted length 5 and exactly the bytes "HELLO" written to
the caller's data buffer. -/
theorem ipd_frame_extraction :
    get_response (strBytes "+IPD,5:HELLO" ++ [13, 10]) =
      some ((.IPD, 5), strBytes "HELLO", []) := by
  decide

/-- C4 counterexample: the line "Recv" begins with none of the prefixes
of spec section 6, yet classifies to `OK`, not `UNKNOWN_COMMAND` (the
classifier's extra "Recv" arm, lib.rs line 462). -/
theorem recv_line_classifies_ok :
    (∀ p ∈ spec_prefix_table, p.isPrefixOf (strBytes "Recv") = false) ∧
      get_response (strBytes "Recv" ++ [13, 10]) = some ((.OK, 0), [], []) :=
  ⟨by decide, by decide⟩

/-- C4 (amended): every line beginning with none of the prefixes of
spec section 6 and not beginning with "Recv" classifies to
`UNKNOWN_COMMAND`, and the exchange engine's reaction to such a line
leaves the device state (its `connection_status`, `got_ip` and `ip`
fields) unchanged. -/
theorem unmatched_line_unknown_state_unchanged (buffer : List Nat)
    (expected : AT_response) (s : DeviceState) (len : Nat)
    (h1 : ∀ p ∈ spec_prefix_table, p.isPrefixOf buffer = false)
    (h2 : (strBytes "Recv").isPrefixOf buffer = false) :
    classify_line buffer = .UNKNOWN_COMMAND ∧
      (send_command_step expected s (some (.UNKNOWN_COMMAND, len))).state = s := by
  have hOK := h1 (strBytes "OK") (by simp [spec_prefix_table])
  have hFAIL := h1 (strBytes "FAIL") (by simp [spec_prefix_table])
  have hready := h1 (strBytes "ready") (by simp [spec_prefix_table])
  have hprompt := h1 (strBytes "> ") (by simp [spec_prefix_table])
  have hAC := h1 (strBytes "ALREADY CONNECTED") (by simp [spec_prefix_table])
  have hWC := h1 (strBytes "WIFI CONNECTED") (by simp [spec_prefix_table])
  have hWG := h1 (strBytes "WIFI GOT IP") (by simp [spec_prefix_table])
  have hWD := h1 (strBytes "WIFI DISCONNECT") (by simp [spec_prefix_table])
  have hIPD := h1 (strBytes "+IPD") (by simp [spec_prefix_table])
  constructor
  · simp [classify_line, classify_text, hIPD, hOK, hFAIL, hready, hprompt, h2,
      hAC, hWC, hWG, hWD]
  · simp only [send_command_step]
    split
    · rfl
    · simp

/-- C4 witness: the amended theorem applied to the concrete line
"HELLO". -/
theorem unmatched_line_unknown_witness :
    classify_line (strBytes "HELLO") = .UNKNOWN_COMMAND ∧
      (send_command_step .OK esp_new (some (.UNKNOWN_COMMAND, 0))).state =
        esp_new :=
  unmatched_line_unknown_state_unchanged (strBytes "HELLO") .OK esp_new 0
    (by decide) (by decide)

/-- C5: for every command, a line classified `ALREADY_CONNECTED` while
awaiting the expected kind ends the wait (satisfied) with no
retransmission, no delay and the device state untouched. -/
theorem already_connected_satisfies_without_resend (cmd : AT_commands)
    (s : DeviceState) (len : Nat) :
    send_command_step (encode cmd).expected s (some (.ALREADY_CONNECTED, len)) =
      ⟨s, true, 0, 0⟩ := by
  simp only [send_command_step]
  split
  · rfl
  · simp

/-- C6: for any exchange expecting `OK`, the classified-line sequence
generic error then `OK` produces exactly 2 writes of the command bytes
(the initial transmission plus exactly one retransmission), zero 200 ms
pacing delays, a satisfied finish, and a final device state equal to
the initial one. -/
theorem error_then_ok_retransmits_once (cmd : AT_commands) (s : DeviceState)
    (h : (encode cmd).expected = .OK) :
    send_command_run cmd s [some (.ERROR, 0), some (.OK, 0)] =
      ⟨s, true, 2, 0⟩ := by
  simp [send_command_run, send_command_loop, send_command_step, h]

/-- C6 witness: the theorem applied to the command `AT` from the fresh
device state. -/
theorem error_then_ok_retransmits_once_witness :
    send_command_run .AT esp_new [some (.ERROR, 0), some (.OK, 0)] =
      ⟨esp_new, true, 2, 0⟩ :=
  error_then_ok_retransmits_once .AT esp_new rfl

/-- C7: every command outside the encoder's explicit allow-list encodes
to the sentinel unknown-command wire text with terminator true and
expected kind `UNKNOWN_COMMAND`, and its bytes (sentinel plus CR LF)
still go to the transport — no error is produced instead. -/
theorem unlisted_command_sentinel (cmd : AT_commands)
    (h : inAllowList cmd = false) :
    encode cmd = ⟨"commands::AT_commands::NO_COMMAND", .UNKNOWN_COMMAND, true⟩ ∧
      wire_bytes cmd =
        strBytes "commands::AT_commands::NO_COMMAND" ++ [13, 10] := by
  cases cmd <;> simp_all [inAllowList, encode, wire_bytes, write_serial]

/-- C7 witness: the theorem applied to the unimplemented command
`GMR`. -/
theorem unlisted_command_sentinel_witness :
    inAllowList .GMR = false ∧
      encode .GMR = ⟨"commands::AT_commands::NO_COMMAND", .UNKNOWN_COMMAND, true⟩ ∧
      wire_bytes .GMR = strBytes "commands::AT_commands::NO_COMMAND" ++ [13, 10] :=
  ⟨by decide, unlisted_command_sentinel .GMR (by decide)⟩

/-- C8: encoding `CWJAP("ssid","pwd")` produces exactly the wire text
AT+CWJAP="ssid","pwd" with terminator true and expected kind `OK`, and
the bytes written to the transport are that text followed by CR LF. -/
theorem cwjap_encoding :
    encode (.CWJAP "ssid" "pwd") =
        ⟨"AT+CWJAP=\"ssid\",\"pwd\"", .OK, true⟩ ∧
      wire_bytes (.CWJAP "ssid" "pwd") =
        strBytes "AT+CWJAP=\"ssid\",\"pwd\"" ++ [13, 10] := by
  constructor
  · rfl
  · rfl

/-- C9: for every expected kind the encoder can produce and every
finite sequence of read outcomes, the wait loop of `send_command` is
satisfied exactly when some outcome is a line classified as the
expected kind or as `ALREADY_CONNECTED`; every other outcome — failed
reads included — leaves the loop waiting, with no attempt bound and no
failure exit. -/
theorem loop_satisfied_iff_expected_or_already (expected : AT_response)
    (h : ∃ cmd, (encode cmd).expected = expected)
    (s : DeviceState) (outcomes : List Outcome) :
    (send_command_loop expected s outcomes).satisfied = true ↔
      ∃ r len, some (r, len) ∈ outcomes ∧
        (r = expected ∨ r = .ALREADY_CONNECTED) := by
  obtain ⟨cmd, hcmd⟩ := h
  have hd := hcmd ▸ encode_expected_cases cmd
  clear hcmd
  induction outcomes generalizing s with
  | nil => simp [send_command_loop]
  | cons o rest ih =>
    cases o with
    | none =>
      have hstep : (send_command_loop expected s (none :: rest)).satisfied =
          (send_command_loop expected s rest).satisfied := by
        simp [send_command_loop, send_command_step]
      rw [hstep]
      constructor
      · intro h2
        obtain ⟨r, len, hmem, hr⟩ := (ih s).mp h2
        exact ⟨r, len, List.mem_cons_of_mem _ hmem, hr⟩
      · rintro ⟨r, len, hmem, hr⟩
        rcases List.mem_cons.mp hmem with hhd | htl
        · exact absurd hhd (by simp)
        · exact (ih s).mpr ⟨r, len, htl, hr⟩
    | some p =>
      obtain ⟨r0, len0⟩ := p
      by_cases hsat : (send_command_step expected s (some (r0, len0))).satisfied = true
      · have hr0 := (step_satisfied_iff expected r0 len0 s hd).mp hsat
        have hstep :
            (send_command_loop expected s (some (r0, len0) :: rest)).satisfied =
              true := by
          simp [send_command_loop, hsat]
        rw [hstep]
        simp only [true_iff]
        exact ⟨r0, len0, List.mem_cons_self _ _, hr0⟩
      · have hr0 : ¬(r0 = expected ∨ r0 = .ALREADY_CONNECTED) :=
          fun hc => hsat ((step_satisfied_iff expected r0 len0 s hd).mpr hc)
        have hstep :
            (send_command_loop expected s (some (r0, len0) :: rest)).satisfied =
              (send_command_loop expected
                (send_command_step expected s (some (r0, len0))).state
                rest).satisfied := by
          simp only [send_command_loop]
          rw [if_neg hsat]
        rw [hstep]
        constructor
        · intro h2
          obtain ⟨r, len, hmem, hr⟩ := (ih _).mp h2
          exact ⟨r, len, List.mem_cons_of_mem _ hmem, hr⟩
        · rintro ⟨r, len, hmem, hr⟩
          rcases List.mem_cons.mp hmem with hhd | htl
          · have hp := Option.some.inj hhd
            have hr2 : r = r0 := congrArg Prod.fst hp
            subst hr2
            exact absurd hr hr0
          · exact (ih _).mpr ⟨r, len, htl, hr⟩

/-- C9 witness: the loop over outcomes error, failed read, `OK` is
satisfied when expecting `OK`, by the theorem applied at that concrete
input. -/
theorem loop_satisfied_witness :
    (send_command_loop .OK esp_new
      [some (.ERROR, 0), none, some (.OK, 3)]).satisfied = true :=
  (loop_satisfied_iff_expected_or_already .OK ⟨.AT, rfl⟩ esp_new
    [some (.ERROR, 0), none, some (.OK, 3)]).mpr ⟨.OK, 3, by simp, Or.inl rfl⟩

/-- C10: `send` either has not returned or returned `Ok(())`, and none
of the public operations built on it (`init`, `join_AP`, `get_IP`,
`tcp_server`, `udp_server`, `send_data`) can ever record an `Err(())`
result: their error branches are unreachable. -/
theorem public_ops_never_return_err (s : DeviceState) (ssid pwd data : String)
    (port : Nat) (o1 o2 o3 o4 : List Outcome) :
    (∀ cmd, send cmd s o1 = none ∨
      ∃ s2, send cmd s o1 = some (s2, Except.ok ())) ∧
    resultOk (init s o1 o2) = true ∧
    resultOk (join_AP s ssid pwd o1 o2) = true ∧
    resultOk (get_IP s o1) = true ∧
    resultOk (tcp_server s port o1 o2 o3) = true ∧
    resultOk (udp_server s port o1 o2 o3 o4) = true ∧
    resultOk (send_data s data o1 o2) = true :=
  ⟨fun cmd => send_eq_cases cmd s o1, resultOk_init s o1 o2,
   resultOk_join_AP s ssid pwd o1 o2, resultOk_get_IP s o1,
   resultOk_tcp_server s port o1 o2 o3, resultOk_udp_server s port o1 o2 o3 o4,
   resultOk_send_data s data o1 o2⟩

end Esp8266
